import Mathlib

/-!
Verification development for the CVL school-council feedback server
(Express + SQLite, single file server).

The definitions below are a shallow embedding of the anti-abuse and
notification layer of the server:

* the `poll` table and the admin poll-activation handler,
* the `poll_votes` table with its UNIQUE(poll_id, voter_hash) constraint
  and the public vote handler,
* the `ideas` table, the idea-submission handler with its honeypot and
  per-device cooldown checks,
* the `push_subscriptions` table and `sendPushToAll`,
* the login handler and the `X-Device-Id` middleware with its SHA-256
  device hash.

Conventions of the embedding:

* Timestamps are modelled as integer milliseconds since the epoch.  The
  server stores `nowIso()` strings and reads them back with
  `Date.parse`; the composition of the two is the identity on the
  underlying millisecond count, so rows carry the milliseconds directly.
* SQLite tables are lists of rows in insertion order (ids ascend).
* JavaScript numbers arriving in request bodies are modelled as
  rationals; `Number.isInteger` is the test `den = 1`.
* External capabilities (the sanitizer, bcrypt.compare, the web-push
  delivery call and the DELETE outcome) are passed in as explicit
  function parameters, so every handler is a pure function of its
  inputs.
-/

/-! ## Poll table and activation (POST /api/admin/poll) -/

structure PollRow where
  id : ℤ
  question : String
  options : List String
  active : Bool
  created_at_ms : ℤ
deriving DecidableEq, Repr

/-- AUTOINCREMENT primary key: one more than the largest id present. -/
def nextPollId (s : List PollRow) : ℤ :=
  (s.map (fun p => p.id)).foldl max 0 + 1

/-- First statement of the activation handler:
`UPDATE poll SET active = 0 WHERE active = 1`. -/
def deactivateAll (s : List PollRow) : List PollRow :=
  s.map (fun p => if p.active then ⟨p.id, p.question, p.options, false, p.created_at_ms⟩ else p)

/-- Second statement of the activation handler:
`INSERT INTO poll(question, options_json, active, created_at) VALUES(?, ?, 1, ?)`. -/
def insertPoll (s : List PollRow) (q : String) (opts : List String) (t : ℤ) : List PollRow :=
  s ++ [⟨nextPollId s, q, opts, true, t⟩]

/-- Number of rows with `active = 1`. -/
def countActive (s : List PollRow) : Nat :=
  (s.filter (fun p => p.active)).length

/-- The two statements of one activation run back to back (the state the
table is in once the handler finishes, when no other statement was
interleaved).  The handler issues the two statements as separate
auto-committed `run` calls with an `await` between them: there is no
`BEGIN`/`COMMIT` around them, so the state `deactivateAll s` is
observable by concurrent readers and writers. -/
def activatePoll (s : List PollRow) (q : String) (opts : List String) (t : ℤ) : List PollRow :=
  insertPoll (deactivateAll s) q opts t

/-! ## Vote table (UNIQUE(poll_id, voter_hash)) and the vote handler
(POST /api/public/poll/:id/vote) -/

structure VoteRow where
  poll_id : ℤ
  option_index : ℚ
  voter_hash : String
  created_at_ms : ℤ
deriving DecidableEq, Repr

/-- A row with this (poll_id, voter_hash) pair already exists, i.e. the
`INSERT` would violate `UNIQUE(poll_id, voter_hash)`. -/
def pairExists (votes : List VoteRow) (pid : ℤ) (dh : String) : Bool :=
  votes.any (fun w => w.poll_id == pid && w.voter_hash == dh)

/-- The express-validator guard `body("optionIndex").isInt(\x7b min: 0, max: 50 \x7d)`. -/
def optionIndexValid (q : ℚ) : Bool :=
  q.den == 1 && decide (0 ≤ q) && decide (q ≤ 50)

/-- The in-handler check
`!Number.isInteger(idx) || idx < 0 || idx >= options.length`
(negated: the index is accepted). -/
def optionInRange (q : ℚ) (options : List String) : Bool :=
  q.den == 1 && decide (0 ≤ q) && decide (q < (options.length : ℚ))

inductive VoteResp where
  | badRequest (msg : String)
  | notFound
  | conflict
  | ok
deriving DecidableEq, Repr

def voteStatus : VoteResp → Nat
  | .badRequest _ => 400
  | .notFound => 404
  | .conflict => 409
  | .ok => 200

/-- The vote handler.  Returns the response together with the
`poll_votes` table after the request.  The final branch models the
`INSERT INTO poll_votes` under the UNIQUE constraint: it fails (and the
catch block answers 409) exactly when a row with the same
(poll_id, voter_hash) already exists. -/
def voteHandler (polls : List PollRow) (votes : List VoteRow) (nowMs pollId : ℤ)
    (optionIndex : ℚ) (deviceHash : String) : VoteResp × List VoteRow :=
  if optionIndexValid optionIndex then
    match polls.find? (fun p => p.id == pollId) with
    | none => (.notFound, votes)
    | some p =>
      if p.active then
        if optionInRange optionIndex p.options then
          if pairExists votes pollId deviceHash then (.conflict, votes)
          else (.ok, votes ++ [⟨pollId, optionIndex, deviceHash, nowMs⟩])
        else (.badRequest "Option invalide", votes)
      else (.notFound, votes)
  else (.badRequest "optionIndex invalide", votes)

/-- All guards in front of the `INSERT` pass: the validator accepts the
index, the poll exists, it is active, and the index is within the
option list. -/
def voteChecksPass (polls : List PollRow) (pollId : ℤ) (q : ℚ) : Bool :=
  optionIndexValid q &&
    (match polls.find? (fun p => p.id == pollId) with
     | some p => p.active && optionInRange q p.options
     | none => false)

/-- The UNIQUE(poll_id, voter_hash) invariant: no two rows share the pair. -/
def uniqVotes (votes : List VoteRow) : Prop :=
  votes.Pairwise (fun a b => ¬(a.poll_id = b.poll_id ∧ a.voter_hash = b.voter_hash))

/-! ## Ideas table and the submission handler (POST /api/public/ideas) -/

structure IdeaRow where
  id : ℤ
  text : String
  category : String
  urgency : String
  status : String
  device_hash : String
  created_at_ms : ℤ
deriving DecidableEq, Repr

structure IdeaReq where
  text : String
  category : String
  urgency : String
  hp : Option String
  deviceHash : String
deriving DecidableEq, Repr

def ideaCategories : List String :=
  ["vie-scolaire", "cantine", "ecologie", "clubs-evenements", "materiel", "autre"]

def ideaUrgencies : List String := ["basse", "moyenne", "haute"]

/-- The express-validator chain on the ideas route: text is a string of
10 to 500 characters, category and urgency are members of their enums,
and hp, when present, is a string of at most 5 characters. -/
def ideaReqValid (r : IdeaReq) : Bool :=
  decide (10 ≤ r.text.length) && decide (r.text.length ≤ 500) &&
  ideaCategories.contains r.category && ideaUrgencies.contains r.urgency &&
  (match r.hp with
   | none => true
   | some s => decide (s.length ≤ 5))

/-- JavaScript `String.prototype.trim`: drop leading and trailing
whitespace.  (Defined over the character list so that it reduces inside
the kernel.) -/
def jsTrim (s : String) : String :=
  String.mk (((s.data.dropWhile Char.isWhitespace).reverse.dropWhile Char.isWhitespace).reverse)

/-- `cleanText`: sanitize, trim, then cut to maxLen when the length
exceeds it.  The sanitizer (strip all HTML) is an external collaborator
passed in as a function. -/
def cleanText (sanitize : String → String) (s : String) (maxLen : Nat) : String :=
  let cleaned := jsTrim (sanitize s)
  if maxLen ≠ 0 ∧ maxLen < cleaned.length then cleaned.take maxLen else cleaned

def nextIdeaId (ideas : List IdeaRow) : ℤ :=
  (ideas.map (fun i => i.id)).foldl max 0 + 1

/-- `SELECT created_at FROM ideas WHERE device_hash = ? ORDER BY id DESC
LIMIT 1`: the row with the largest id among the rows of this device. -/
def mostRecent (ideas : List IdeaRow) (dh : String) : Option IdeaRow :=
  (ideas.filter (fun i => i.device_hash == dh)).foldl
    (fun acc i =>
      match acc with
      | none => some i
      | some j => if j.id ≤ i.id then some i else some j) none

/-- The row inserted by a successful submission. -/
def insertedIdea (sanitize : String → String) (ideas : List IdeaRow) (nowMs : ℤ)
    (r : IdeaReq) : IdeaRow :=
  ⟨nextIdeaId ideas, cleanText sanitize r.text 500, r.category, r.urgency, "nouveau",
   r.deviceHash, nowMs⟩

inductive IdeaResp where
  | badRequest
  | tooMany (retryAfterSec : ℤ)
  | ok
deriving DecidableEq, Repr

def ideaStatus : IdeaResp → Nat
  | .badRequest => 400
  | .tooMany _ => 429
  | .ok => 200

/-- The ideas handler: validation, honeypot, per-device cooldown
(`remaining = Math.ceil(IDEA_COOLDOWN_SEC - (Date.now() - Date.parse(last.created_at)) / 1000)`,
reject 429 when positive), then the INSERT. -/
def ideasHandler (sanitize : String → String) (cooldownSec : ℚ) (ideas : List IdeaRow)
    (nowMs : ℤ) (r : IdeaReq) : IdeaResp × List IdeaRow :=
  if ideaReqValid r then
    if jsTrim (r.hp.getD "") == "" then
      match mostRecent ideas r.deviceHash with
      | some last =>
        let diffSec : ℚ := ((nowMs - last.created_at_ms : ℤ) : ℚ) / 1000
        let remaining : ℤ := ⌈cooldownSec - diffSec⌉
        if 0 < remaining then (.tooMany remaining, ideas)
        else (.ok, ideas ++ [insertedIdea sanitize ideas nowMs r])
      | none => (.ok, ideas ++ [insertedIdea sanitize ideas nowMs r])
    else (.badRequest, ideas)
  else (.badRequest, ideas)

/-! ## Push subscriptions and sendPushToAll -/

structure PushSub where
  endpoint : String
  subscription_json : String
deriving DecidableEq, Repr

/-- Outcome of the body of the try block for one subscription:
`JSON.parse` followed by `webpush.sendNotification`.  A thrown error
carries an optional `statusCode`. -/
inductive PushDelivery where
  | ok
  | fail (statusCode : Option ℤ)
deriving DecidableEq, Repr

/-- External effects of the dispatch loop: the per-subscription delivery
outcome and whether the best-effort `DELETE` of an endpoint succeeds. -/
structure PushEnv where
  deliver : PushSub → PushDelivery
  deleteOk : String → Bool

/-- `status === 404 || status === 410` on `e?.statusCode`. -/
def isGoneStatus : Option ℤ → Bool
  | some s => s == 404 || s == 410
  | none => false

/-- VAPID configuration and availability of the lazily imported
web-push module. -/
structure PushConfig where
  vapidPublicKey : String
  vapidPrivateKey : String
  webpushAvailable : Bool
deriving DecidableEq, Repr

/-- `canUsePushConfig()`: both VAPID keys are set. -/
def canUsePushConfig (c : PushConfig) : Bool :=
  c.vapidPublicKey != "" && c.vapidPrivateKey != ""

structure PushResult where
  sent : Nat
  failed : Nat
  disabled : Bool
deriving DecidableEq, Repr

/-- Result of a dispatch together with the subscription table afterwards,
the subscriptions the per-item try block ran for, and whether the
`SELECT` over the table was ever issued. -/
structure PushOutcome where
  result : PushResult
  store : List PushSub
  attempted : List PushSub
  storeRead : Bool
deriving Repr

/-- The `for (const s of subs)` loop of `sendPushToAll`: on success
increment `sent`; on failure increment `failed` and, when the status is
404 or 410, delete the subscription row (a failing delete is swallowed
and leaves the table unchanged). -/
def pushLoop (env : PushEnv) : List PushSub → Nat → Nat → List PushSub → List PushSub →
    Nat × Nat × List PushSub × List PushSub
  | [], sent, failed, store, att => (sent, failed, store, att)
  | s :: rest, sent, failed, store, att =>
    match env.deliver s with
    | .ok => pushLoop env rest (sent + 1) failed store (att ++ [s])
    | .fail code =>
      pushLoop env rest sent (failed + 1)
        (if isGoneStatus code && env.deleteOk s.endpoint
         then store.filter (fun x => x.endpoint != s.endpoint) else store)
        (att ++ [s])

/-- `sendPushToAll`: disabled result when the VAPID keys are missing or
the web-push module is unavailable (without touching the table),
otherwise read the table and run the loop over the rows read. -/
def sendPushToAll (cfg : PushConfig) (env : PushEnv) (store : List PushSub) : PushOutcome :=
  if !canUsePushConfig cfg then ⟨⟨0, 0, true⟩, store, [], false⟩
  else if !cfg.webpushAvailable then ⟨⟨0, 0, true⟩, store, [], false⟩
  else
    let out := pushLoop env store 0 0 store []
    ⟨⟨out.1, out.2.1, false⟩, out.2.2.1, out.2.2.2, true⟩

/-- Delivery to this subscription succeeds. -/
def delivOk (env : PushEnv) (s : PushSub) : Bool :=
  match env.deliver s with
  | .ok => true
  | .fail _ => false

/-- This subscription fails with a gone status and its delete succeeds,
i.e. the loop removes its row. -/
def goneFail (env : PushEnv) (s : PushSub) : Bool :=
  match env.deliver s with
  | .ok => false
  | .fail code => isGoneStatus code && env.deleteOk s.endpoint

/-- POST /api/push/send after `sendPushToAll`:
`if (result.disabled) return res.status(501)...` else 200. -/
def pushSendStatus (cfg : PushConfig) (env : PushEnv) (store : List PushSub) : Nat :=
  if (sendPushToAll cfg env store).result.disabled then 501 else 200

/-! ## Login (POST /api/auth/login) -/

inductive LoginResp where
  | badRequest
  | serverError
  | unauthorized
  | ok
deriving DecidableEq, Repr

def loginStatus : LoginResp → Nat
  | .badRequest => 400
  | .serverError => 500
  | .unauthorized => 401
  | .ok => 200

/-- The login handler: express-validator requires a password string of 6
to 128 characters (otherwise 400); a missing ADMIN_PASSWORD_HASH is 500;
a failing `bcrypt.compare` (passed in as the `compare` capability) is
401; on a match the signed admin token is issued and set as the session
cookie.  The second component is the cookie set by the response. -/
def loginHandler (compare : String → String → Bool) (token : String)
    (adminPasswordHash : String) (password : String) : LoginResp × Option String :=
  if password.length < 6 ∨ 128 < password.length then (.badRequest, none)
  else if adminPasswordHash == "" then (.serverError, none)
  else if !compare password adminPasswordHash then (.unauthorized, none)
  else (.ok, some token)

/-! ## SHA-256 and the X-Device-Id middleware

`sha256(input)` in the server is `crypto.createHash("sha256")` over the
UTF-8 bytes of the input, rendered as a lowercase hex digest.  The
algorithm is implemented here over `Nat` with explicit reduction modulo
2^32. -/

/-- UTF-8 encoding of one code point. -/
def utf8Encode (c : Nat) : List Nat :=
  if c < 128 then [c]
  else if c < 2048 then [192 + c / 64, 128 + c % 64]
  else if c < 65536 then [224 + c / 4096, 128 + (c / 64) % 64, 128 + c % 64]
  else [240 + c / 262144, 128 + (c / 4096) % 64, 128 + (c / 64) % 64, 128 + c % 64]

/-- Rotate the low 32 bits of x to the right by n places. -/
def rotr32 (n x : Nat) : Nat :=
  ((x >>> n) ||| (x <<< (32 - n))) % 4294967296

def bigSigma0 (x : Nat) : Nat := rotr32 2 x ^^^ rotr32 13 x ^^^ rotr32 22 x

def bigSigma1 (x : Nat) : Nat := rotr32 6 x ^^^ rotr32 11 x ^^^ rotr32 25 x

def smallSigma0 (x : Nat) : Nat := rotr32 7 x ^^^ rotr32 18 x ^^^ (x >>> 3)

def smallSigma1 (x : Nat) : Nat := rotr32 17 x ^^^ rotr32 19 x ^^^ (x >>> 10)

def chV (e f g : Nat) : Nat := (e &&& f) ^^^ ((e ^^^ 4294967295) &&& g)

def majV (a b c : Nat) : Nat := (a &&& b) ^^^ (a &&& c) ^^^ (b &&& c)

/-- The eight working variables / hash words. -/
structure Hash8 where
  a : Nat
  b : Nat
  c : Nat
  d : Nat
  e : Nat
  f : Nat
  g : Nat
  h : Nat
deriving DecidableEq, Repr

def sha256H0 : Hash8 :=
  ⟨1779033703, 3144134277, 1013904242, 2773480762,
   1359893119, 2600822924, 528734635, 1541459225⟩

def K256 : List Nat :=
  [1116352408, 1899447441, 3049323471, 3921009573, 961987163,
   1508970993, 2453635748, 2870763221, 3624381080, 310598401,
   607225278, 1426881987, 1925078388, 2162078206, 2614888103,
   3248222580, 3835390401, 4022224774, 264347078, 604807628,
   770255983, 1249150122, 1555081692, 1996064986, 2554220882,
   2821834349, 2952996808, 3210313671, 3336571891, 3584528711,
   113926993, 338241895, 666307205, 773529912, 1294757372,
   1396182291, 1695183700, 1986661051, 2177026350, 2456956037,
   2730485921, 2820302411, 3259730800, 3345764771, 3516065817,
   3600352804, 4094571909, 275423344, 430227734, 506948616,
   659060556, 883997877, 958139571, 1322822218, 1537002063,
   1747873779, 1955562222, 2024104815, 2227730452, 2361852424,
   2428436474, 2756734187, 3204031479, 3329325298]

/-- One compression round. -/
def roundStep (st : Hash8) (kw : Nat × Nat) : Hash8 :=
  let t1 := (st.h + bigSigma1 st.e + chV st.e st.f st.g + kw.1 + kw.2) % 4294967296
  let t2 := (bigSigma0 st.a + majV st.a st.b st.c) % 4294967296
  ⟨(t1 + t2) % 4294967296, st.a, st.b, st.c, (st.d + t1) % 4294967296, st.e, st.f, st.g⟩

/-- Extend the 16 block words to the 64-entry message schedule. -/
def buildSchedule (ws : List Nat) : List Nat :=
  (List.range 48).foldl
    (fun acc _ =>
      let n := acc.length
      acc ++ [(smallSigma1 (acc.getD (n - 2) 0) + acc.getD (n - 7) 0 +
               smallSigma0 (acc.getD (n - 15) 0) + acc.getD (n - 16) 0) % 4294967296]) ws

/-- Compress one 16-word block into the running hash. -/
def compressBlock (H : Hash8) (block : List Nat) : Hash8 :=
  let w := buildSchedule block
  let st := (K256.zip w).foldl roundStep H
  ⟨(H.a + st.a) % 4294967296, (H.b + st.b) % 4294967296, (H.c + st.c) % 4294967296,
   (H.d + st.d) % 4294967296, (H.e + st.e) % 4294967296, (H.f + st.f) % 4294967296,
   (H.g + st.g) % 4294967296, (H.h + st.h) % 4294967296⟩

/-- Fold the compression over the padded message, 16 words at a time. -/
def sha256Blocks (H : Hash8) : List Nat → Hash8
  | w0 :: w1 :: w2 :: w3 :: w4 :: w5 :: w6 :: w7 ::
    w8 :: w9 :: w10 :: w11 :: w12 :: w13 :: w14 :: w15 :: rest =>
      sha256Blocks
        (compressBlock H [w0, w1, w2, w3, w4, w5, w6, w7, w8, w9, w10, w11, w12, w13, w14, w15])
        rest
  | _ => H

/-- Big-endian packing of bytes into 32-bit words. -/
def toWords : List Nat → List Nat
  | b0 :: b1 :: b2 :: b3 :: t => (((b0 * 256 + b1) * 256 + b2) * 256 + b3) :: toWords t
  | _ => []

/-- SHA-256 padding: a 0x80 byte, zeros up to 56 mod 64, then the bit
length as 8 big-endian bytes. -/
def sha256pad (msg : List Nat) : List Nat :=
  let bitLen := msg.length * 8
  let padZeros := (64 + 56 - (msg.length + 1) % 64) % 64
  msg ++ [128] ++ List.replicate padZeros 0 ++
    [(bitLen >>> 56) % 256, (bitLen >>> 48) % 256, (bitLen >>> 40) % 256, (bitLen >>> 32) % 256,
     (bitLen >>> 24) % 256, (bitLen >>> 16) % 256, (bitLen >>> 8) % 256, bitLen % 256]

def hexChar (n : Nat) : Char :=
  if n < 10 then Char.ofNat (48 + n) else Char.ofNat (87 + n)

/-- Lowercase hex rendering of one 32-bit word, always 8 characters. -/
def wordHex (w : Nat) : List Char :=
  [hexChar ((w >>> 28) % 16), hexChar ((w >>> 24) % 16), hexChar ((w >>> 20) % 16),
   hexChar ((w >>> 16) % 16), hexChar ((w >>> 12) % 16), hexChar ((w >>> 8) % 16),
   hexChar ((w >>> 4) % 16), hexChar (w % 16)]

/-- `sha256(input)`: hex digest of the SHA-256 of the UTF-8 bytes. -/
def sha256Hex (s : String) : String :=
  let bytes := (s.data.map (fun c => utf8Encode c.toNat)).flatten
  let H := sha256Blocks sha256H0 (toWords (sha256pad bytes))
  String.mk (wordHex H.a ++ wordHex H.b ++ wordHex H.c ++ wordHex H.d ++
             wordHex H.e ++ wordHex H.f ++ wordHex H.g ++ wordHex H.h)

/-- A request as seen by the `/api` middleware: only the X-Device-Id
header matters to it. -/
structure ApiRequest where
  deviceIdHeader : Option String
deriving DecidableEq, Repr

inductive DeviceResolution where
  | reject400
  | proceed (deviceHash : String)
deriving DecidableEq, Repr

/-- The `/api` middleware: `req.get("X-Device-Id") || ""`, reject 400
when empty or out of the 8..200 length range, otherwise resolve
`req.deviceHash = sha256(deviceId)` and continue.  It touches no state:
the result is a function of the header alone. -/
def deviceIdMiddleware (r : ApiRequest) : DeviceResolution :=
  let deviceId := r.deviceIdHeader.getD ""
  if deviceId = "" ∨ deviceId.length < 8 ∨ 200 < deviceId.length then .reject400
  else .proceed (sha256Hex deviceId)

/-! ## Theorems -/

/-- The dispatch loop processes every pending subscription, in order. -/
theorem pushLoop_attempted (env : PushEnv) (pending : List PushSub) :
    ∀ sent failed store att,
      (pushLoop env pending sent failed store att).2.2.2 = att ++ pending := by
  induction pending with
  | nil => intro sent failed store att; simp [pushLoop]
  | cons s rest ih =>
    intro sent failed store att
    cases hd : env.deliver s <;> simp [pushLoop, hd, ih]

/-- The sent counter counts the successful deliveries. -/
theorem pushLoop_sent (env : PushEnv) (pending : List PushSub) :
    ∀ sent failed store att,
      (pushLoop env pending sent failed store att).1 =
        sent + (pending.filter (fun s => delivOk env s)).length := by
  induction pending with
  | nil => intro sent failed store att; simp [pushLoop]
  | cons s rest ih =>
    intro sent failed store att
    cases hd : env.deliver s with
    | ok => simp [pushLoop, hd, ih, delivOk]; omega
    | fail code => simp [pushLoop, hd, ih, delivOk]

/-- The failed counter counts the failed deliveries. -/
theorem pushLoop_failed (env : PushEnv) (pending : List PushSub) :
    ∀ sent failed store att,
      (pushLoop env pending sent failed store att).2.1 =
        failed + (pending.filter (fun s => !delivOk env s)).length := by
  induction pending with
  | nil => intro sent failed store att; simp [pushLoop]
  | cons s rest ih =>
    intro sent failed store att
    cases hd : env.deliver s with
    | ok => simp [pushLoop, hd, ih, delivOk]
    | fail code => simp [pushLoop, hd, ih, delivOk]; omega

/-- The table after the loop keeps exactly the rows against which no
pending subscription scored a successful gone-delete. -/
theorem pushLoop_store (env : PushEnv) (pending : List PushSub) :
    ∀ sent failed store att,
      (pushLoop env pending sent failed store att).2.2.1 =
        store.filter (fun x => pending.all (fun s => !(goneFail env s && x.endpoint == s.endpoint))) := by
  induction pending with
  | nil => intro sent failed store att; simp [pushLoop]
  | cons s rest ih =>
    intro sent failed store att
    cases hd : env.deliver s with
    | ok =>
      have hg : goneFail env s = false := by simp [goneFail, hd]
      simp only [pushLoop, hd]
      rw [ih]
      congr 1
      funext x
      simp [List.all_cons, hg]
    | fail code =>
      by_cases hc : (isGoneStatus code && env.deleteOk s.endpoint) = true
      · have hg : goneFail env s = true := by simp [goneFail, hd, hc]
        simp only [pushLoop, hd, hc, if_true]
        rw [ih, List.filter_filter]
        congr 1
        funext x
        simp [List.all_cons, hg, Bool.and_comm, bne]
      · have hg : goneFail env s = false := by
          simp only [goneFail, hd]
          exact Bool.not_eq_true _ ▸ (by simpa using hc)
        simp only [pushLoop, hd]
        rw [if_neg (by simp [hc]), ih]
        congr 1
        funext x
        simp [List.all_cons, hg]

/-- Splitting a list by a boolean predicate preserves the length. -/
theorem length_filter_split (l : List PushSub) (p : PushSub → Bool) :
    (l.filter p).length + (l.filter (fun a => !p a)).length = l.length := by
  induction l with
  | nil => simp
  | cons a t ih => cases h : p a <;> simp [h] <;> omega

/-- Appending a vote whose (poll_id, voter_hash) pair is not yet present
preserves the UNIQUE invariant. -/
theorem uniqVotes_append (votes : List VoteRow) (v : VoteRow)
    (hU : uniqVotes votes) (hP : pairExists votes v.poll_id v.voter_hash = false) :
    uniqVotes (votes ++ [v]) := by
  unfold uniqVotes
  rw [List.pairwise_append]
  refine ⟨hU, by simp, ?_⟩
  intro a ha b hb
  simp only [List.mem_singleton] at hb
  subst hb
  simp only [pairExists, List.any_eq_false, Bool.and_eq_true, beq_iff_eq, not_and] at hP
  intro hcon
  exact hP a ha hcon.1 hcon.2

/-- C1: the activation handler issues `UPDATE poll SET active = 0` and the
`INSERT` of the new active poll as two separately committed statements
with no surrounding transaction.  Concretely: after a first activation
one poll is active; a second activation that has run only its first
statement leaves zero active polls even though polls exist; and two
interleaved activations (update A, update B, insert A, insert B) leave
two active polls.  Both observations contradict the claimed invariant
that the active count is always 0 before any poll exists and 1 after. -/
theorem C1_activation_gap_observable :
    countActive (activatePoll [] "Q1" ["Oui", "Non"] 1000) = 1 ∧
    countActive (deactivateAll (activatePoll [] "Q1" ["Oui", "Non"] 1000)) = 0 ∧
    deactivateAll (activatePoll [] "Q1" ["Oui", "Non"] 1000) ≠ [] ∧
    countActive
      (insertPoll
        (insertPoll (deactivateAll (deactivateAll (activatePoll [] "Q1" ["Oui", "Non"] 1000)))
          "QA" ["a", "b"] 2000)
        "QB" ["c", "d"] 3000) = 2 := by
  decide

/-- C2: for every (poll_id, voter_hash) pair at most one poll_votes row
ever exists (the handler preserves the UNIQUE invariant), and a request
from a device that already has a row for this poll never succeeds and
never changes the table; when all guards in front of the INSERT pass,
the response is exactly the distinct 409 conflict. -/
theorem C2_second_vote_conflict
    (polls : List PollRow) (votes : List VoteRow) (nowMs pollId : ℤ) (q : ℚ) (dh : String)
    (hUniq : uniqVotes votes) :
    uniqVotes (voteHandler polls votes nowMs pollId q dh).2 ∧
    (pairExists votes pollId dh = true →
      (voteHandler polls votes nowMs pollId q dh).2 = votes ∧
      (voteHandler polls votes nowMs pollId q dh).1 ≠ .ok ∧
      (voteChecksPass polls pollId q = true →
        (voteHandler polls votes nowMs pollId q dh).1 = .conflict)) := by
  unfold voteHandler voteChecksPass
  by_cases hv : optionIndexValid q = true
  · cases hfind : polls.find? (fun p => p.id == pollId) with
    | none => simp [hv, hfind, hUniq]
    | some p =>
      by_cases ha : p.active = true
      · by_cases hr : optionInRange q p.options = true
        · by_cases hp : pairExists votes pollId dh = true
          · simp [hv, hfind, ha, hr, hp, hUniq]
          · simp only [Bool.not_eq_true] at hp
            simp only [hv, hfind, ha, hr, hp, if_true, if_false, Bool.false_eq_true]
            refine ⟨?_, by simp [hp]⟩
            simpa using uniqVotes_append votes ⟨pollId, q, dh, nowMs⟩ hUniq hp
        · simp [hv, hfind, ha, hr, hUniq]
      · simp [hv, hfind, ha, hUniq]
  · simp [hv, hUniq]

/-- C2 witness: concrete second vote from the same device on the same
active poll. -/
theorem C2_second_vote_conflict_witness :
    uniqVotes [⟨1, 0, "devhash00", 0⟩] ∧
    (uniqVotes (voteHandler [⟨1, "Q", ["a", "b"], true, 0⟩] [⟨1, 0, "devhash00", 0⟩] 5 1 1 "devhash00").2 ∧
     (pairExists [⟨1, 0, "devhash00", 0⟩] 1 "devhash00" = true →
       (voteHandler [⟨1, "Q", ["a", "b"], true, 0⟩] [⟨1, 0, "devhash00", 0⟩] 5 1 1 "devhash00").2 =
         [⟨1, 0, "devhash00", 0⟩] ∧
       (voteHandler [⟨1, "Q", ["a", "b"], true, 0⟩] [⟨1, 0, "devhash00", 0⟩] 5 1 1 "devhash00").1 ≠ .ok ∧
       (voteChecksPass [⟨1, "Q", ["a", "b"], true, 0⟩] 1 1 = true →
         (voteHandler [⟨1, "Q", ["a", "b"], true, 0⟩] [⟨1, 0, "devhash00", 0⟩] 5 1 1 "devhash00").1 =
           .conflict))) :=
  ⟨by simp [uniqVotes], C2_second_vote_conflict _ _ _ _ _ _ (by simp [uniqVotes])⟩

/-- C6: on an existing active poll, an optionIndex that is negative,
non-integer, or at least the option count is answered with status 400
and the vote table is unchanged. -/
theorem C6_out_of_range_rejected
    (polls : List PollRow) (votes : List VoteRow) (nowMs pollId : ℤ) (q : ℚ) (dh : String)
    (p : PollRow)
    (hFind : polls.find? (fun x => x.id == pollId) = some p)
    (hActive : p.active = true)
    (hBad : q < 0 ∨ q.den ≠ 1 ∨ (p.options.length : ℚ) ≤ q) :
    voteStatus (voteHandler polls votes nowMs pollId q dh).1 = 400 ∧
    (voteHandler polls votes nowMs pollId q dh).2 = votes := by
  by_cases hv : optionIndexValid q = true
  · have hv' := hv
    simp only [optionIndexValid, Bool.and_eq_true, beq_iff_eq, decide_eq_true_eq] at hv'
    obtain ⟨⟨hden, hnonneg⟩, _⟩ := hv'
    have hge : (p.options.length : ℚ) ≤ q := by
      rcases hBad with h | h | h
      · exact absurd hnonneg (not_le.mpr h)
      · exact absurd hden h
      · exact h
    have hrange : optionInRange q p.options = false := by
      simp [optionInRange, not_lt.mpr hge]
    simp [voteHandler, hv, hFind, hActive, hrange, voteStatus]
  · simp [voteHandler, hv, voteStatus]

/-- C6 witness: active two-option poll, index 5 is out of range. -/
theorem C6_out_of_range_rejected_witness :
    ([⟨1, "Q", ["a", "b"], true, 0⟩] : List PollRow).find? (fun x => x.id == 1) =
      some ⟨1, "Q", ["a", "b"], true, 0⟩ ∧
    (⟨1, "Q", ["a", "b"], true, 0⟩ : PollRow).active = true ∧
    ((5 : ℚ) < 0 ∨ (5 : ℚ).den ≠ 1 ∨ (((⟨1, "Q", ["a", "b"], true, 0⟩ : PollRow).options.length : ℚ) ≤ 5)) ∧
    (voteStatus (voteHandler [⟨1, "Q", ["a", "b"], true, 0⟩] [] 5 1 5 "devhash00").1 = 400 ∧
     (voteHandler [⟨1, "Q", ["a", "b"], true, 0⟩] [] 5 1 5 "devhash00").2 = []) :=
  ⟨by decide, by decide, by right; right; decide,
   C6_out_of_range_rejected [⟨1, "Q", ["a", "b"], true, 0⟩] [] 5 1 5 "devhash00"
     ⟨1, "Q", ["a", "b"], true, 0⟩ (by decide) (by decide) (by right; right; decide)⟩

/-- C9: a vote on a poll that exists but is inactive is answered 404 with
no row written, and the handler behaves exactly as it does when the poll
is absent from the table. -/
theorem C9_inactive_poll_like_absent
    (polls : List PollRow) (votes : List VoteRow) (nowMs pollId : ℤ) (q : ℚ) (dh : String)
    (p : PollRow)
    (hFind : polls.find? (fun x => x.id == pollId) = some p)
    (hInactive : p.active = false) :
    (optionIndexValid q = true →
      voteHandler polls votes nowMs pollId q dh = (.notFound, votes)) ∧
    voteHandler polls votes nowMs pollId q dh =
      voteHandler (polls.filter (fun x => !(x.id == pollId))) votes nowMs pollId q dh := by
  have habsent : (polls.filter (fun x => !(x.id == pollId))).find? (fun x => x.id == pollId) = none := by
    rw [List.find?_eq_none]
    intro x hx
    have := (List.mem_filter.mp hx).2
    simp only [Bool.not_eq_true'] at this
    simp [this]
  constructor
  · intro hv
    simp [voteHandler, hv, hFind, hInactive]
  · by_cases hv : optionIndexValid q = true
    · simp [voteHandler, hv, hFind, hInactive, habsent]
    · simp [voteHandler, hv]

/-- C9 witness: poll 1 exists but is inactive. -/
theorem C9_inactive_poll_like_absent_witness :
    ([⟨1, "Q", ["a", "b"], false, 0⟩] : List PollRow).find? (fun x => x.id == 1) =
      some ⟨1, "Q", ["a", "b"], false, 0⟩ ∧
    (⟨1, "Q", ["a", "b"], false, 0⟩ : PollRow).active = false ∧
    ((optionIndexValid 0 = true →
      voteHandler [⟨1, "Q", ["a", "b"], false, 0⟩] [] 5 1 0 "devhash00" = (.notFound, [])) ∧
     voteHandler [⟨1, "Q", ["a", "b"], false, 0⟩] [] 5 1 0 "devhash00" =
       voteHandler (([⟨1, "Q", ["a", "b"], false, 0⟩] : List PollRow).filter
         (fun x => !(x.id == 1))) [] 5 1 0 "devhash00") :=
  ⟨by decide, by decide,
   C9_inactive_poll_like_absent [⟨1, "Q", ["a", "b"], false, 0⟩] [] 5 1 0 "devhash00"
     ⟨1, "Q", ["a", "b"], false, 0⟩ (by decide) (by decide)⟩

/-- C4: with a prior idea from the device, the handler rejects with 429
and `retry_after_sec = ceil(cooldown - elapsed)`, which is positive,
exactly when the elapsed time in seconds is below the cooldown window;
when the elapsed time has reached the window, or no prior idea exists,
the submission is accepted and the row inserted. -/
theorem C4_cooldown_retry_after
    (sanitize : String → String) (cooldownSec : ℚ) (ideas : List IdeaRow) (nowMs : ℤ)
    (r : IdeaReq) (last : IdeaRow)
    (hValid : ideaReqValid r = true)
    (hHp : (jsTrim (r.hp.getD "") == "") = true) :
    (mostRecent ideas r.deviceHash = some last →
      (((nowMs - last.created_at_ms : ℤ) : ℚ) / 1000 < cooldownSec →
        ideasHandler sanitize cooldownSec ideas nowMs r =
          (.tooMany ⌈cooldownSec - ((nowMs - last.created_at_ms : ℤ) : ℚ) / 1000⌉, ideas) ∧
        0 < ⌈cooldownSec - ((nowMs - last.created_at_ms : ℤ) : ℚ) / 1000⌉) ∧
      (cooldownSec ≤ ((nowMs - last.created_at_ms : ℤ) : ℚ) / 1000 →
        ideasHandler sanitize cooldownSec ideas nowMs r =
          (.ok, ideas ++ [insertedIdea sanitize ideas nowMs r]))) ∧
    (mostRecent ideas r.deviceHash = none →
      ideasHandler sanitize cooldownSec ideas nowMs r =
        (.ok, ideas ++ [insertedIdea sanitize ideas nowMs r])) := by
  constructor
  · intro hLast
    constructor
    · intro hlt
      have hpos : 0 < ⌈cooldownSec - ((nowMs - last.created_at_ms : ℤ) : ℚ) / 1000⌉ :=
        Int.ceil_pos.mpr (by linarith)
      refine ⟨?_, hpos⟩
      simp only [ideasHandler, hValid, hHp, hLast, if_true]
      rw [if_pos hpos]
    · intro hge
      have hnp : ¬ (0 < ⌈cooldownSec - ((nowMs - last.created_at_ms : ℤ) : ℚ) / 1000⌉) := by
        have hle : ⌈cooldownSec - ((nowMs - last.created_at_ms : ℤ) : ℚ) / 1000⌉ ≤ 0 :=
          Int.ceil_le.mpr (by push_cast at hge ⊢; linarith)
        omega
      simp only [ideasHandler, hValid, hHp, hLast, if_true]
      rw [if_neg hnp]
  · intro hNone
    simp only [ideasHandler, hValid, hHp, hNone, if_true]

/-- C4 witness: one idea 45 s old, cooldown 60 s. -/
theorem C4_cooldown_retry_after_witness :
    ideaReqValid ⟨"une idee de texte", "cantine", "basse", none, "devhash00"⟩ = true ∧
    ((jsTrim ((⟨"une idee de texte", "cantine", "basse", none, "devhash00"⟩ : IdeaReq).hp.getD "") == "") = true) ∧
    ((mostRecent [⟨1, "une premiere idee", "cantine", "basse", "nouveau", "devhash00", 0⟩] "devhash00" =
        some ⟨1, "une premiere idee", "cantine", "basse", "nouveau", "devhash00", 0⟩ →
      ((((45000 : ℤ) - 0 : ℤ) : ℚ) / 1000 < (60 : ℚ) →
        ideasHandler (fun s => s) 60 [⟨1, "une premiere idee", "cantine", "basse", "nouveau", "devhash00", 0⟩]
            45000 ⟨"une idee de texte", "cantine", "basse", none, "devhash00"⟩ =
          (.tooMany ⌈(60 : ℚ) - (((45000 : ℤ) - 0 : ℤ) : ℚ) / 1000⌉,
           [⟨1, "une premiere idee", "cantine", "basse", "nouveau", "devhash00", 0⟩]) ∧
        0 < ⌈(60 : ℚ) - (((45000 : ℤ) - 0 : ℤ) : ℚ) / 1000⌉) ∧
      ((60 : ℚ) ≤ (((45000 : ℤ) - 0 : ℤ) : ℚ) / 1000 →
        ideasHandler (fun s => s) 60 [⟨1, "une premiere idee", "cantine", "basse", "nouveau", "devhash00", 0⟩]
            45000 ⟨"une idee de texte", "cantine", "basse", none, "devhash00"⟩ =
          (.ok, [⟨1, "une premiere idee", "cantine", "basse", "nouveau", "devhash00", 0⟩] ++
            [insertedIdea (fun s => s) [⟨1, "une premiere idee", "cantine", "basse", "nouveau", "devhash00", 0⟩]
              45000 ⟨"une idee de texte", "cantine", "basse", none, "devhash00"⟩]))) ∧
     (mostRecent [⟨1, "une premiere idee", "cantine", "basse", "nouveau", "devhash00", 0⟩] "devhash00" = none →
      ideasHandler (fun s => s) 60 [⟨1, "une premiere idee", "cantine", "basse", "nouveau", "devhash00", 0⟩]
          45000 ⟨"une idee de texte", "cantine", "basse", none, "devhash00"⟩ =
        (.ok, [⟨1, "une premiere idee", "cantine", "basse", "nouveau", "devhash00", 0⟩] ++
          [insertedIdea (fun s => s) [⟨1, "une premiere idee", "cantine", "basse", "nouveau", "devhash00", 0⟩]
            45000 ⟨"une idee de texte", "cantine", "basse", none, "devhash00"⟩]))) :=
  ⟨by decide, by decide,
   C4_cooldown_retry_after (fun s => s) 60
     [⟨1, "une premiere idee", "cantine", "basse", "nouveau", "devhash00", 0⟩] 45000
     ⟨"une idee de texte", "cantine", "basse", none, "devhash00"⟩
     ⟨1, "une premiere idee", "cantine", "basse", "nouveau", "devhash00", 0⟩
     (by decide) (by decide)⟩

/-- C10: a submission whose honeypot field is present and non-empty
after trimming is rejected with 400 and the ideas table is unchanged,
whatever the other fields contain. -/
theorem C10_honeypot_rejected
    (sanitize : String → String) (cooldownSec : ℚ) (ideas : List IdeaRow) (nowMs : ℤ)
    (r : IdeaReq) (s : String)
    (hHp : r.hp = some s) (hNe : jsTrim s ≠ "") :
    ideaStatus (ideasHandler sanitize cooldownSec ideas nowMs r).1 = 400 ∧
    (ideasHandler sanitize cooldownSec ideas nowMs r).2 = ideas := by
  by_cases hv : ideaReqValid r = true
  · have hb : (jsTrim (r.hp.getD "") == "") = false := by
      rw [hHp]
      simp only [Option.getD_some]
      exact beq_eq_false_iff_ne.mpr hNe
    simp [ideasHandler, hv, hb, ideaStatus]
  · simp [ideasHandler, hv, ideaStatus]

/-- C10 witness: a valid request except that hp = "x". -/
theorem C10_honeypot_rejected_witness :
    (⟨"une idee de texte", "cantine", "basse", some "x", "devhash00"⟩ : IdeaReq).hp = some "x" ∧
    jsTrim "x" ≠ "" ∧
    (ideaStatus (ideasHandler (fun s => s) 60 [] 45000
        ⟨"une idee de texte", "cantine", "basse", some "x", "devhash00"⟩).1 = 400 ∧
     (ideasHandler (fun s => s) 60 [] 45000
        ⟨"une idee de texte", "cantine", "basse", some "x", "devhash00"⟩).2 = []) :=
  ⟨by decide, by decide,
   C10_honeypot_rejected (fun s => s) 60 [] 45000
     ⟨"une idee de texte", "cantine", "basse", some "x", "devhash00"⟩ "x" (by decide) (by decide)⟩

/-- C3: with push configured, `sendPushToAll` runs the per-item try
block for every stored subscription (one failure never stops the
others), returns sent = number of successful deliveries and failed =
number of failed ones with sent + failed = total, and afterwards the
table holds exactly the rows not removed by a successful gone-status
delete: every row whose delivery failed with status 404 or 410 and whose
delete succeeded is gone, every other row (all successful ones included)
remains. -/
theorem C3_push_fanout (cfg : PushConfig) (env : PushEnv) (store : List PushSub)
    (hCfg : canUsePushConfig cfg = true) (hMod : cfg.webpushAvailable = true)
    (hNodup : (store.map (fun s => s.endpoint)).Nodup) :
    (sendPushToAll cfg env store).attempted = store ∧
    (sendPushToAll cfg env store).result.sent = (store.filter (fun s => delivOk env s)).length ∧
    (sendPushToAll cfg env store).result.failed = (store.filter (fun s => !delivOk env s)).length ∧
    (sendPushToAll cfg env store).result.sent + (sendPushToAll cfg env store).result.failed =
      store.length ∧
    (sendPushToAll cfg env store).store = store.filter (fun s => !goneFail env s) ∧
    (sendPushToAll cfg env store).result.disabled = false := by
  have hrun : sendPushToAll cfg env store =
      ⟨⟨(pushLoop env store 0 0 store []).1, (pushLoop env store 0 0 store []).2.1, false⟩,
       (pushLoop env store 0 0 store []).2.2.1, (pushLoop env store 0 0 store []).2.2.2, true⟩ := by
    simp [sendPushToAll, hCfg, hMod]
  have hpt : ∀ x ∈ store,
      (store.all (fun s => !(goneFail env s && x.endpoint == s.endpoint))) = !goneFail env x := by
    intro x hx
    cases hgx : goneFail env x with
    | true =>
      simp only [hgx, Bool.not_true]
      apply List.all_eq_false.mpr
      exact ⟨x, hx, by simp [hgx]⟩
    | false =>
      simp only [hgx, Bool.not_false]
      apply List.all_eq_true.mpr
      intro s hs
      by_cases he : x.endpoint = s.endpoint
      · have hsx : s = x := List.inj_on_of_nodup_map hNodup hs hx he.symm
        subst hsx
        simp [hgx]
      · simp [he]
  refine ⟨?_, ?_, ?_, ?_, ?_, ?_⟩
  · rw [hrun]; simp [pushLoop_attempted]
  · rw [hrun]; simp [pushLoop_sent]
  · rw [hrun]; simp [pushLoop_failed]
  · rw [hrun]
    show (pushLoop env store 0 0 store []).1 + (pushLoop env store 0 0 store []).2.1 = store.length
    rw [pushLoop_sent, pushLoop_failed]
    simpa using length_filter_split store (fun s => delivOk env s)
  · rw [hrun]
    show (pushLoop env store 0 0 store []).2.2.1 = store.filter (fun s => !goneFail env s)
    rw [pushLoop_store]
    exact List.filter_congr hpt
  · rw [hrun]

/-- C3 witness: the three-subscription example of the specification: one
delivery fails with status 410, the two others succeed. -/
theorem C3_push_fanout_witness :
    canUsePushConfig ⟨"pubkey", "privkey", true⟩ = true ∧
    (⟨"pubkey", "privkey", true⟩ : PushConfig).webpushAvailable = true ∧
    (([⟨"ep1", "j1"⟩, ⟨"ep2", "j2"⟩, ⟨"ep3", "j3"⟩] : List PushSub).map (fun s => s.endpoint)).Nodup ∧
    ((sendPushToAll ⟨"pubkey", "privkey", true⟩
        ⟨fun s => if s.endpoint == "ep2" then .fail (some 410) else .ok, fun _ => true⟩
        [⟨"ep1", "j1"⟩, ⟨"ep2", "j2"⟩, ⟨"ep3", "j3"⟩]).attempted =
          [⟨"ep1", "j1"⟩, ⟨"ep2", "j2"⟩, ⟨"ep3", "j3"⟩] ∧
     (sendPushToAll ⟨"pubkey", "privkey", true⟩
        ⟨fun s => if s.endpoint == "ep2" then .fail (some 410) else .ok, fun _ => true⟩
        [⟨"ep1", "j1"⟩, ⟨"ep2", "j2"⟩, ⟨"ep3", "j3"⟩]).result.sent =
          (([⟨"ep1", "j1"⟩, ⟨"ep2", "j2"⟩, ⟨"ep3", "j3"⟩] : List PushSub).filter
            (fun s => delivOk ⟨fun s => if s.endpoint == "ep2" then .fail (some 410) else .ok, fun _ => true⟩ s)).length ∧
     (sendPushToAll ⟨"pubkey", "privkey", true⟩
        ⟨fun s => if s.endpoint == "ep2" then .fail (some 410) else .ok, fun _ => true⟩
        [⟨"ep1", "j1"⟩, ⟨"ep2", "j2"⟩, ⟨"ep3", "j3"⟩]).result.failed =
          (([⟨"ep1", "j1"⟩, ⟨"ep2", "j2"⟩, ⟨"ep3", "j3"⟩] : List PushSub).filter
            (fun s => !delivOk ⟨fun s => if s.endpoint == "ep2" then .fail (some 410) else .ok, fun _ => true⟩ s)).length ∧
     (sendPushToAll ⟨"pubkey", "privkey", true⟩
        ⟨fun s => if s.endpoint == "ep2" then .fail (some 410) else .ok, fun _ => true⟩
        [⟨"ep1", "j1"⟩, ⟨"ep2", "j2"⟩, ⟨"ep3", "j3"⟩]).result.sent +
       (sendPushToAll ⟨"pubkey", "privkey", true⟩
        ⟨fun s => if s.endpoint == "ep2" then .fail (some 410) else .ok, fun _ => true⟩
        [⟨"ep1", "j1"⟩, ⟨"ep2", "j2"⟩, ⟨"ep3", "j3"⟩]).result.failed =
          ([⟨"ep1", "j1"⟩, ⟨"ep2", "j2"⟩, ⟨"ep3", "j3"⟩] : List PushSub).length ∧
     (sendPushToAll ⟨"pubkey", "privkey", true⟩
        ⟨fun s => if s.endpoint == "ep2" then .fail (some 410) else .ok, fun _ => true⟩
        [⟨"ep1", "j1"⟩, ⟨"ep2", "j2"⟩, ⟨"ep3", "j3"⟩]).store =
          ([⟨"ep1", "j1"⟩, ⟨"ep2", "j2"⟩, ⟨"ep3", "j3"⟩] : List PushSub).filter
            (fun s => !goneFail ⟨fun s => if s.endpoint == "ep2" then .fail (some 410) else .ok, fun _ => true⟩ s) ∧
     (sendPushToAll ⟨"pubkey", "privkey", true⟩
        ⟨fun s => if s.endpoint == "ep2" then .fail (some 410) else .ok, fun _ => true⟩
        [⟨"ep1", "j1"⟩, ⟨"ep2", "j2"⟩, ⟨"ep3", "j3"⟩]).result.disabled = false) :=
  ⟨by decide, rfl, by decide,
   C3_push_fanout ⟨"pubkey", "privkey", true⟩
     ⟨fun s => if s.endpoint == "ep2" then .fail (some 410) else .ok, fun _ => true⟩
     [⟨"ep1", "j1"⟩, ⟨"ep2", "j2"⟩, ⟨"ep3", "j3"⟩] (by decide) rfl (by decide)⟩

/-- C5: when the VAPID key pair is not configured, or the web-push
module is unavailable, `sendPushToAll` returns the distinct disabled
result without running any delivery attempt and without reading or
changing the subscription table, and the send route answers 501. -/
theorem C5_push_disabled (cfg : PushConfig) (env : PushEnv) (store : List PushSub)
    (hDis : canUsePushConfig cfg = false ∨ cfg.webpushAvailable = false) :
    (sendPushToAll cfg env store).result = ⟨0, 0, true⟩ ∧
    (sendPushToAll cfg env store).store = store ∧
    (sendPushToAll cfg env store).attempted = [] ∧
    (sendPushToAll cfg env store).storeRead = false ∧
    pushSendStatus cfg env store = 501 := by
  have h1 : sendPushToAll cfg env store = ⟨⟨0, 0, true⟩, store, [], false⟩ := by
    rcases hDis with h | h
    · simp [sendPushToAll, h]
    · by_cases h2 : canUsePushConfig cfg = true
      · simp [sendPushToAll, h2, h]
      · simp only [Bool.not_eq_true] at h2
        simp [sendPushToAll, h2]
  rw [pushSendStatus, h1]
  simp [h1]

/-- C5 witness: empty VAPID keys. -/
theorem C5_push_disabled_witness :
    (canUsePushConfig ⟨"", "", true⟩ = false ∨ (⟨"", "", true⟩ : PushConfig).webpushAvailable = false) ∧
    ((sendPushToAll ⟨"", "", true⟩ ⟨fun _ => .ok, fun _ => true⟩ [⟨"ep1", "j1"⟩]).result = ⟨0, 0, true⟩ ∧
     (sendPushToAll ⟨"", "", true⟩ ⟨fun _ => .ok, fun _ => true⟩ [⟨"ep1", "j1"⟩]).store = [⟨"ep1", "j1"⟩] ∧
     (sendPushToAll ⟨"", "", true⟩ ⟨fun _ => .ok, fun _ => true⟩ [⟨"ep1", "j1"⟩]).attempted = [] ∧
     (sendPushToAll ⟨"", "", true⟩ ⟨fun _ => .ok, fun _ => true⟩ [⟨"ep1", "j1"⟩]).storeRead = false ∧
     pushSendStatus ⟨"", "", true⟩ ⟨fun _ => .ok, fun _ => true⟩ [⟨"ep1", "j1"⟩] = 501) :=
  ⟨Or.inl (by decide),
   C5_push_disabled ⟨"", "", true⟩ ⟨fun _ => .ok, fun _ => true⟩ [⟨"ep1", "j1"⟩] (Or.inl (by decide))⟩

/-- C7 counterexample: the password "wrong" (5 characters) does not match
the stored hash, yet login answers 400 — the validator length gate fires
before the hash comparison — not the claimed 401.  (The compare
capability is the constant-false one, as bcrypt.compare is for any
password that does not match the stored hash.) -/
theorem C7_login_counterexample :
    loginHandler (fun _ _ => false) "signedtoken" "storedhash" "wrong" = (.badRequest, none) ∧
    loginStatus (loginHandler (fun _ _ => false) "signedtoken" "storedhash" "wrong").1 = 400 ∧
    loginStatus (loginHandler (fun _ _ => false) "signedtoken" "storedhash" "wrong").1 ≠ 401 := by
  decide

/-- C7 (amended): for every password inside the validated length range
(6 to 128 characters) that fails the hash comparison, with a configured
hash, login answers exactly 401 and sets no session cookie; shorter or
longer passwords are rejected 400 by validation, also without a cookie. -/
theorem C7_login_unauthorized
    (compare : String → String → Bool) (token adminPasswordHash password : String)
    (hHash : (adminPasswordHash == "") = false)
    (hLen : ¬(password.length < 6 ∨ 128 < password.length))
    (hNoMatch : compare password adminPasswordHash = false) :
    loginHandler compare token adminPasswordHash password = (.unauthorized, none) ∧
    loginStatus (loginHandler compare token adminPasswordHash password).1 = 401 ∧
    (loginHandler compare token adminPasswordHash password).2 = none := by
  have h : loginHandler compare token adminPasswordHash password = (.unauthorized, none) := by
    simp [loginHandler, hLen, hHash, hNoMatch]
  exact ⟨h, by rw [h]; rfl, by rw [h]⟩

/-- C7 witness: a 7-character non-matching password. -/
theorem C7_login_unauthorized_witness :
    (("storedhash" : String) == "") = false ∧
    ¬(("wrongpw" : String).length < 6 ∨ 128 < ("wrongpw" : String).length) ∧
    ((fun (_ _ : String) => false) "wrongpw" "storedhash" = false) ∧
    (loginHandler (fun _ _ => false) "signedtoken" "storedhash" "wrongpw" = (.unauthorized, none) ∧
     loginStatus (loginHandler (fun _ _ => false) "signedtoken" "storedhash" "wrongpw").1 = 401 ∧
     (loginHandler (fun _ _ => false) "signedtoken" "storedhash" "wrongpw").2 = none) :=
  ⟨by decide, by decide, rfl,
   C7_login_unauthorized (fun _ _ => false) "signedtoken" "storedhash" "wrongpw"
     (by decide) (by decide) rfl⟩

/-- C8: the device identity resolution of the `/api` middleware is a
pure, deterministic function of the X-Device-Id header: two requests
carrying the same in-range header resolve to the same result, namely
proceeding with the SHA-256 hex digest of the header value. -/
theorem C8_device_hash_deterministic (r1 r2 : ApiRequest) (d : String)
    (h1 : r1.deviceIdHeader = some d) (h2 : r2.deviceIdHeader = some d)
    (hLen : 8 ≤ d.length ∧ d.length ≤ 200) :
    deviceIdMiddleware r1 = deviceIdMiddleware r2 ∧
    deviceIdMiddleware r1 = .proceed (sha256Hex d) := by
  have hne : ¬(d = "" ∨ d.length < 8 ∨ 200 < d.length) := by
    push_neg
    refine ⟨?_, by omega, by omega⟩
    intro h
    rw [h] at hLen
    have h0 : ("" : String).length = 0 := rfl
    omega
  have e1 : deviceIdMiddleware r1 = .proceed (sha256Hex d) := by
    simp only [deviceIdMiddleware, h1, Option.getD_some]
    rw [if_neg hne]
  have e2 : deviceIdMiddleware r2 = .proceed (sha256Hex d) := by
    simp only [deviceIdMiddleware, h2, Option.getD_some]
    rw [if_neg hne]
  exact ⟨e1.trans e2.symm, e1⟩

/-- C8 witness: the identifier "abc12345" of the specification. -/
theorem C8_device_hash_deterministic_witness :
    (⟨some "abc12345"⟩ : ApiRequest).deviceIdHeader = some "abc12345" ∧
    8 ≤ ("abc12345" : String).length ∧ ("abc12345" : String).length ≤ 200 ∧
    (deviceIdMiddleware ⟨some "abc12345"⟩ = deviceIdMiddleware ⟨some "abc12345"⟩ ∧
     deviceIdMiddleware ⟨some "abc12345"⟩ = .proceed (sha256Hex "abc12345")) :=
  ⟨rfl, by decide, by decide,
   C8_device_hash_deterministic ⟨some "abc12345"⟩ ⟨some "abc12345"⟩ "abc12345" rfl rfl
     ⟨by decide, by decide⟩⟩
